import Mathlib

/-
Verification development for the blogging-backend core
(src/core/models/__init__.py and src/core/api/__init__.py).

Machine words are modelled as Nat with explicit reduction modulo 2^32
where the Python code relies on 32-bit wrap-around (inside hashlib.sha1);
Python str values are Lean String, bytes are List Nat (each < 256),
Python None is Option.none, and OrderedDict is an association list
whose order is significant.
-/

namespace Cage

/-! ### SHA-1 (hashlib.sha1), over byte lists, 32-bit words as Nat mod 2^32 -/

def w32 : Nat := 4294967296

def rotl (b x : Nat) : Nat := ((x <<< b) ||| (x >>> (32 - b))) % w32

/-- Big-endian rendering of a natural number as `k` bytes. -/
def beBytes (k n : Nat) : List Nat :=
  (List.range k).map (fun i => (n >>> (8 * (k - 1 - i))) % 256)

/-- SHA-1 padding: append 0x80, zero bytes up to 56 mod 64, then the
bit length as 8 big-endian bytes. -/
def sha1Pad (ms : List Nat) : List Nat :=
  ms ++ [128] ++ List.replicate ((119 - ms.length % 64) % 64) 0
     ++ beBytes 8 (8 * ms.length)

/-- Word `i` (32-bit, big-endian) of a padded byte list. -/
def beWord (l : List Nat) (i : Nat) : Nat :=
  (l.getD (4 * i) 0) <<< 24 ||| (l.getD (4 * i + 1) 0) <<< 16 |||
  (l.getD (4 * i + 2) 0) <<< 8 ||| l.getD (4 * i + 3) 0

/-- The 80-entry SHA-1 message schedule of one 16-word block. -/
def sha1Schedule (blk : Nat → Nat) : List Nat :=
  (List.range 80).foldl
    (fun ws t =>
      ws ++ [if t < 16 then blk t % w32
             else rotl 1 (ws.getD (t - 3) 0 ^^^ ws.getD (t - 8) 0 ^^^
                          ws.getD (t - 14) 0 ^^^ ws.getD (t - 16) 0)])
    []

/-- SHA-1 round function and constant for round `t`. -/
def sha1FK (t b c d : Nat) : Nat × Nat :=
  if t < 20 then ((b &&& c) ||| ((b ^^^ 4294967295) &&& d), 1518500249)
  else if t < 40 then (b ^^^ c ^^^ d, 1859775393)
  else if t < 60 then ((b &&& c) ||| (b &&& d) ||| (c &&& d), 2400959708)
  else (b ^^^ c ^^^ d, 3395469782)

/-- The running SHA-1 state: five 32-bit words. -/
structure H5 where
  a : Nat
  b : Nat
  c : Nat
  d : Nat
  e : Nat
deriving DecidableEq, Repr

def sha1Init : H5 := ⟨1732584193, 4023233417, 2562383102, 271733878, 3285377520⟩

/-- Compression of one 512-bit block into the running state. -/
def sha1Compress (h : H5) (blk : Nat → Nat) : H5 :=
  let ws := sha1Schedule blk
  let s := (List.range 80).foldl
    (fun (st : Nat × Nat × Nat × Nat × Nat) t =>
      match st with
      | (a, b, c, d, e) =>
        let fk := sha1FK t b c d
        ((rotl 5 a + fk.1 + e + fk.2 + ws.getD t 0) % w32, a, rotl 30 b, c, d))
    (h.a, h.b, h.c, h.d, h.e)
  ⟨(h.a + s.1) % w32, (h.b + s.2.1) % w32, (h.c + s.2.2.1) % w32,
   (h.d + s.2.2.2.1) % w32, (h.e + s.2.2.2.2) % w32⟩

/-- SHA-1 of a byte list, as the five final state words. -/
def sha1Words (msg : List Nat) : H5 :=
  let padded := sha1Pad msg
  (List.range (padded.length / 64)).foldl
    (fun h i => sha1Compress h (fun j => beWord padded (16 * i + j)))
    sha1Init

def hexDigit (n : Nat) : Char :=
  if n < 10 then Char.ofNat (48 + n) else Char.ofNat (87 + n)

/-- Lowercase hexadecimal rendering of one 32-bit word, 8 digits. -/
def hex8 (n : Nat) : List Char :=
  (List.range 8).map (fun i => hexDigit ((n >>> (4 * (7 - i))) % 16))

/-- `hashlib.sha1(msg).hexdigest()`: 40 lowercase hex characters. -/
def sha1Hex (msg : List Nat) : String :=
  let h := sha1Words msg
  String.mk (hex8 h.a ++ hex8 h.b ++ hex8 h.c ++ hex8 h.d ++ hex8 h.e)

/-- UTF-8 encoding of one character (Python `str.encode`). -/
def utf8Char (c : Char) : List Nat :=
  let n := c.toNat
  if n < 128 then [n]
  else if n < 2048 then [192 + n / 64, 128 + n % 64]
  else if n < 65536 then [224 + n / 4096, 128 + (n / 64) % 64, 128 + n % 64]
  else [240 + n / 262144, 128 + (n / 4096) % 64, 128 + (n / 64) % 64,
        128 + n % 64]

/-- Python `s.encode('utf-8')` as a byte list. -/
def strBytes (s : String) : List Nat := s.data.flatMap utf8Char

/-! ### Ordered-dictionary values (OrderedDict from collections)

A serialized value is None, a bool, a number, a string, or a nested
ordered dictionary; an OrderedDict is an association list whose key
order is significant. -/

inductive Val where
  | vnone : Val
  | vbool : Bool → Val
  | vnat : Nat → Val
  | vstr : String → Val
  | vdict : List (String × Val) → Val

/-- The keys of an ordered dictionary, in emission order. -/
def keysOf (d : List (String × Val)) : List String := d.map Prod.fst

/-- Python truthiness of an optional boolean (`None` is falsy). -/
def truthy : Option Bool → Bool
  | none => false
  | some b => b

/-! ### User (class User in src/core/models/__init__.py)

`last_login` and `create_time` are DateTimeFields; their values are
opaque to every operation verified here, so they are modelled as Nat
timestamps. `permission` is a BigIntegerField holding a capability
bitmask (non-negative in all uses). -/

structure User where
  id : String
  name : String
  password : String
  permission : Nat
  expired : Bool
  last_login : Nat
  create_time : Nat
deriving DecidableEq, Repr

/-- `User.can`: `return bool(self.permission & permission)`. -/
def User.can (u : User) (permission : Nat) : Bool :=
  u.permission &&& permission != 0

/-- `User.set_password`: hash the plaintext concatenated with the
process-wide salt `app_config['USER_PASSWORD_SALT']` (passed here
explicitly) and store the hex digest in the password field. -/
def User.set_password (salt : String) (u : User) (plain_password : String) :
    User :=
  { u with password := sha1Hex (strBytes (plain_password ++ salt)) }

/-- `User.check_password`: recompute
`sha1((self.password + str(timestamp)).encode()).hexdigest()` and compare
it with the presented digest. -/
def User.check_password (u : User) (enc_password : String) (timestamp : Nat) :
    Bool :=
  sha1Hex (strBytes (u.password ++ toString timestamp)) == enc_password

/-- `User.is_active`: `return not self.expired`. -/
def User.is_active (u : User) : Bool := !u.expired

/-- `User.__init__`: peewee assigns the keyword arguments to the fields,
then, when a password keyword was supplied and is not None, the
constructor immediately replaces it through `set_password`. A user
constructed without a password keyword has the field unset; that case is
modelled with the empty string. -/
def User.init (salt : String) (id name : String) (password : Option String)
    (permission : Nat) (expired : Bool) (last_login create_time : Nat) :
    User :=
  let u : User := ⟨id, name, password.getD "", permission, expired,
                   last_login, create_time⟩
  match password with
  | some p => u.set_password salt p
  | none => u

/-! ### Permission formatting (module core/models/permission.py) -/

/-- Modelled from the spec: the module core/models/permission.py is
imported by src/core/models/__init__.py but is not under src/. Per spec
section 4.1, `format_permission(bitmask)` enumerates every known
capability in a fixed, stable order with its on/off state; the capability
catalog (name, bit position) is a closed process-wide constant and is
left here as an explicit parameter. -/
def Permission.format_permission (catalog : List (String × Nat)) (m : Nat) :
    Val :=
  Val.vdict (catalog.map (fun p => (p.1, Val.vbool (m &&& (1 <<< p.2) != 0))))

/-- `User.to_dict`: id, name, permission (only when `with_perimission`,
spelled as in the source), expired, last_login — in that order. -/
def User.to_dict (catalog : List (String × Nat)) (u : User)
    (with_perimission : Bool) : List (String × Val) :=
  [("id", Val.vstr u.id), ("name", Val.vstr u.name)]
  ++ (if with_perimission then
        [("permission", Permission.format_permission catalog u.permission)]
      else [])
  ++ [("expired", Val.vbool u.expired), ("last_login", Val.vnat u.last_login)]

/-! ### AnonymousUser (class AnonymousUser, for flask_login) -/

namespace AnonymousUser

/-- `AnonymousUser.permission = None`. -/
def permission : Option Nat := none

/-- `AnonymousUser.can`: the body is `pass`, so the call returns None
(`Option.none`), whatever the argument is. -/
def can {α : Type} (p : α) : Option Bool := none

end AnonymousUser

/-! ### Relational rows and on-delete behavior

The remaining entities are modelled twice: as relational rows (foreign
keys are ids, as stored) for the cascade claims, and, for Article, as the
joined object graph that `Article.to_dict` reads (`self.author.name`,
`self.category.name`). -/

structure CategoryRow where
  id : String
  name : String
  create_time : Nat
  create_by : Option String
  /-- The aggregated alias `count` attached by `Category.query()`; the
  source probes it with `hasattr(self, 'count')`, modelled as an
  optional field present only when the aggregating query produced it. -/
  count : Option Nat
deriving DecidableEq, Repr

/-- `Category.to_dict`: id, name, then article_count only when the
aggregated `count` attribute is present. -/
def Category.to_dict (c : CategoryRow) : List (String × Val) :=
  [("id", Val.vstr c.id), ("name", Val.vstr c.name)]
  ++ (match c.count with
      | some n => [("article_count", Val.vnat n)]
      | none => [])

structure ArticleRow where
  id : String
  is_commentable : Bool
  title : String
  text_type : String
  source_text : String
  content : Option String
  read_count : Nat
  post_time : Nat
  update_time : Nat
  public : Bool
  category : Option String
  author : Option String
deriving DecidableEq, Repr

structure CommentRow where
  id : Nat
  content : String
  nickname : String
  reviewed : Bool
  is_author : Bool
  create_time : Nat
  ip_address : Option String
  user : Option String
  article : String
  reply_to : Option Nat
deriving DecidableEq, Repr

/-- `Comment.to_dict`: id, content, nickname, is_author (only when true),
create_time, reply_to (the raw foreign-key id, None rendered as None). -/
def Comment.to_dict (c : CommentRow) : List (String × Val) :=
  [("id", Val.vnat c.id), ("content", Val.vstr c.content),
   ("nickname", Val.vstr c.nickname)]
  ++ (if c.is_author then [("is_author", Val.vbool c.is_author)] else [])
  ++ [("create_time", Val.vnat c.create_time),
      ("reply_to", match c.reply_to with
                   | some n => Val.vnat n
                   | none => Val.vnone)]

structure EventRow where
  id : Nat
  type : String
  description : String
  ip_address : Option String
  endpoint : String
  request : String
  create_time : Nat
  user : Option String
deriving DecidableEq, Repr

/-- The relational store: one table per entity. -/
structure Store where
  users : List User
  categories : List CategoryRow
  articles : List ArticleRow
  comments : List CommentRow
  events : List EventRow
deriving DecidableEq, Repr

/-- Modelled from the spec: row deletion is executed by the external
relational store; the on-delete policies themselves are declared in
src/core/models/__init__.py (`Comment.user` and `Event.user` carry
`on_delete='CASCADE'`, `Article.author` and `Category.create_by` carry
`on_delete='SET NULL'`) and, per spec sections 3 and 5, the store applies
them atomically when a user row is deleted. -/
def deleteUser (s : Store) (uid : String) : Store :=
  { users := s.users.filter (fun u => u.id != uid),
    categories := s.categories.map
      (fun c => if c.create_by = some uid then { c with create_by := none }
                else c),
    articles := s.articles.map
      (fun a => if a.author = some uid then { a with author := none } else a),
    comments := s.comments.filter (fun c => c.user != some uid),
    events := s.events.filter (fun e => e.user != some uid) }

/-! ### Article as the joined object graph read by `Article.to_dict` -/

structure Article where
  id : String
  is_commentable : Bool
  title : String
  text_type : String
  source_text : String
  content : Option String
  read_count : Nat
  post_time : Nat
  update_time : Nat
  public : Bool
  category : Option CategoryRow
  author : Option User
deriving DecidableEq, Repr

/-- `Article.to_dict`: id, title, author (when joined and non-null, as a
nested dict of id and name), category (likewise), content (only when
`with_content`), public, is_commentable, read_count, post_time,
update_time, then text_type and source_text (only when `with_src`). -/
def Article.to_dict (a : Article) (with_content with_src : Bool) :
    List (String × Val) :=
  [("id", Val.vstr a.id), ("title", Val.vstr a.title)]
  ++ (match a.author with
      | some u => [("author",
          Val.vdict [("id", Val.vstr u.id), ("name", Val.vstr u.name)])]
      | none => [])
  ++ (match a.category with
      | some c => [("category",
          Val.vdict [("id", Val.vstr c.id), ("name", Val.vstr c.name)])]
      | none => [])
  ++ (if with_content then
        [("content", match a.content with
                     | some s => Val.vstr s
                     | none => Val.vnone)]
      else [])
  ++ [("public", Val.vbool a.public),
      ("is_commentable", Val.vbool a.is_commentable),
      ("read_count", Val.vnat a.read_count),
      ("post_time", Val.vnat a.post_time),
      ("update_time", Val.vnat a.update_time)]
  ++ (if with_src then
        [("text_type", Val.vstr a.text_type),
         ("source_text", Val.vstr a.source_text)]
      else [])

/-! ### Login flow -/

/-- Modelled from the spec: the login handler (core/api/auth.py, imported
by src/core/api/__init__.py) is not under src/. Per spec sections 4.2 and
7, authentication resolves the user by name (unknown user rejected),
rejects a non-active (expired) user, and otherwise succeeds iff
`check_password` accepts the presented digest for the timestamp. -/
def authenticate (users : List User) (name enc_password : String)
    (timestamp : Nat) : Bool :=
  match users.find? (fun u => u.name == name) with
  | none => false
  | some u => u.is_active && u.check_password enc_password timestamp

/-! ### Section 3 field orders (from the spec text, for the
serialization-order claim)

These four lists follow the spec's words, not the code: they are the
literal field orders of spec section 3, used to compare the code's
emission order against the spec's. -/

def spec3UserOrder : List String :=
  ["id", "name", "password", "permission", "expired", "last_login",
   "create_time"]

def spec3CategoryOrder : List String :=
  ["id", "name", "create_time", "create_by", "article_count"]

def spec3ArticleOrder : List String :=
  ["id", "title", "text_type", "source_text", "content", "read_count",
   "post_time", "update_time", "public", "is_commentable", "category",
   "author"]

def spec3CommentOrder : List String :=
  ["content", "nickname", "reviewed", "is_author", "create_time",
   "ip_address", "user", "article", "reply_to"]

/-- `isSubseq l r` holds when `l` is an ordered subsequence of `r`:
the formal reading of "keys are emitted in the literal order listed in
spec section 3" for a projection that omits some fields. -/
def isSubseq : List String → List String → Bool
  | [], _ => true
  | _ :: _, [] => false
  | x :: xs, y :: ys =>
    if x = y then isSubseq xs ys else isSubseq (x :: xs) ys

/-! ### Concrete rows used to instantiate the cascade behavior -/

def wUser : User := ⟨"u1", "alice", "h", 0, false, 0, 0⟩

def wCategory : CategoryRow := ⟨"c1", "general", 0, some "u1", none⟩

def wArticle : ArticleRow :=
  ⟨"a1", true, "title", "md", "text", none, 0, 0, 0, true, none, some "u1"⟩

def wComment : CommentRow :=
  ⟨1, "hi", "nick", false, false, 0, none, some "u1", "a1", none⟩

def wEvent : EventRow := ⟨1, "login", "d", none, "ep", "GET / HTTP", 0, some "u1"⟩

def wStore : Store := ⟨[wUser], [wCategory], [wArticle], [wComment], [wEvent]⟩

end Cage

namespace Cage

set_option maxRecDepth 400000

/-! ### Shared key-order lemmas -/

/-- The key order `Article.to_dict` emits, for every article and both
flags: id, title, the optional author and category blocks, the optional
content key, the fixed middle block, and the optional source block. -/
theorem article_keys (a : Article) (wc ws : Bool) :
    keysOf (a.to_dict wc ws) =
      ["id", "title"]
      ++ (match a.author with | some _ => ["author"] | none => [])
      ++ (match a.category with | some _ => ["category"] | none => [])
      ++ (if wc then ["content"] else [])
      ++ ["public", "is_commentable", "read_count", "post_time",
          "update_time"]
      ++ (if ws then ["text_type", "source_text"] else []) := by
  cases ha : a.author <;> cases hc : a.category <;> cases wc <;> cases ws <;>
    simp [Article.to_dict, keysOf, ha, hc]

/-- The key order `User.to_dict` emits for each flag value. -/
theorem user_keys (catalog : List (String × Nat)) (u : User) (wp : Bool) :
    keysOf (User.to_dict catalog u wp) =
      if wp then ["id", "name", "permission", "expired", "last_login"]
      else ["id", "name", "expired", "last_login"] := by
  cases wp <;> simp [User.to_dict, keysOf]

/-- The key order `Category.to_dict` emits. -/
theorem category_keys (c : CategoryRow) :
    keysOf (Category.to_dict c) =
      ["id", "name"]
      ++ (match c.count with | some _ => ["article_count"] | none => []) := by
  cases hc : c.count <;> simp [Category.to_dict, keysOf, hc]

/-- The key order `Comment.to_dict` emits. -/
theorem comment_keys (cm : CommentRow) :
    keysOf (Comment.to_dict cm) =
      ["id", "content", "nickname"]
      ++ (if cm.is_author then ["is_author"] else [])
      ++ ["create_time", "reply_to"] := by
  cases hb : cm.is_author <;> simp [Comment.to_dict, keysOf, hb]

/-! ### Supporting lemmas on the credential model -/

/-- A SHA-1 hex digest always has 40 characters. -/
theorem aux_sha1Hex_length (msg : List Nat) : (sha1Hex msg).length = 40 := by
  simp [sha1Hex, hex8, String.length]

/-- Round trip: after `set_password`, presenting the digest of the stored
hash concatenated with the rendered timestamp always authenticates. -/
theorem aux_check_password_roundtrip (salt : String) (u : User)
    (p : String) (t : Nat) :
    (u.set_password salt p).check_password
      (sha1Hex (strBytes ((u.set_password salt p).password ++ toString t)))
      t = true := by
  simp [User.check_password]

/-- `check_password` succeeds exactly when the presented digest equals the
recomputed digest of the stored hash and the rendered timestamp. -/
theorem aux_check_password_iff (u : User) (enc : String) (t : Nat) :
    u.check_password enc t = true ↔
      sha1Hex (strBytes (u.password ++ toString t)) = enc := by
  simp [User.check_password]

/-- Constructing a user with a password keyword stores the salted digest. -/
theorem aux_init_stores_digest (salt : String) (id name : String)
    (p : String) (perm : Nat) (exp : Bool) (ll ct : Nat) :
    (User.init salt id name (some p) perm exp ll ct).password
      = sha1Hex (strBytes (p ++ salt)) := rfl

/-- The stored hash differs from the plaintext whenever the plaintext is
not exactly 40 characters long (the digest always is). -/
theorem aux_stored_ne_plaintext_of_length (salt : String) (u : User)
    (p : String) (h : p.length ≠ 40) :
    (u.set_password salt p).password ≠ p := by
  intro heq
  apply h
  simp only [User.set_password] at heq
  rw [← heq]
  exact aux_sha1Hex_length _

/-! ### The claims -/

/-- Claim C1: for every user permission bitmask and capability bitmask,
`User.can` returns true iff their bitwise AND is non-zero; in particular
a user whose bitmask is 0 has no capabilities. -/
theorem user_can_bitmask (u : User) (c : Nat) :
    (u.can c = true ↔ u.permission &&& c ≠ 0) ∧
    ({ u with permission := 0 } : User).can c = false := by
  constructor
  · simp [User.can]
  · simp [User.can]

/-- Claim C2, counterexample: `AnonymousUser.can` applied to the concrete
argument 0 does not return the boolean value False — its body is `pass`,
so it returns None. -/
theorem anonymous_can_not_boolean_false :
    AnonymousUser.can (0 : Nat) ≠ some false := by decide

/-- Claim C2, amended: `AnonymousUser.can` returns None for every
argument; None is falsy, so the anonymous user holds no capability, but
the returned value is None rather than the boolean False. -/
theorem anonymous_can_returns_none {α : Type} (p : α) :
    AnonymousUser.can p = none ∧ truthy (AnonymousUser.can p) = false :=
  ⟨rfl, rfl⟩

/-- Claim C4: `set_password` stores in the password field exactly the
SHA-1 hex digest of the plaintext concatenated with the configured salt,
and changes nothing else; the last two conjuncts pin the digest function
to genuine SHA-1 through the FIPS 180-1 test vectors. -/
theorem set_password_stores_salted_digest (salt : String) (u : User)
    (p : String) :
    u.set_password salt p
      = { u with password := sha1Hex (strBytes (p ++ salt)) } ∧
    sha1Hex (strBytes "abc") = "a9993e364706816aba3e25717850c26c9cd0d89d" ∧
    sha1Hex (strBytes "") = "da39a3ee5e6b4b0d3255bfef95601890afd80709" :=
  ⟨rfl, by decide, by decide⟩

/-- Claim C6: a user whose expired flag is set is never authenticated,
whatever digest and timestamp are presented (spec-modelled login flow;
`check_password` itself does not consult the flag, the login flow rejects
through `is_active`). -/
theorem expired_user_never_authenticated (users : List User)
    (name enc : String) (t : Nat) (u : User)
    (hfind : users.find? (fun v => v.name == name) = some u)
    (hexp : u.expired = true) :
    authenticate users name enc t = false := by
  simp [authenticate, hfind, User.is_active, hexp]

/-- Claim C6, witness: a concrete expired user is rejected. -/
theorem expired_user_never_authenticated_witness :
    authenticate [⟨"u1", "alice", "h", 0, true, 0, 0⟩] "alice" "d" 0
      = false :=
  expired_user_never_authenticated
    [⟨"u1", "alice", "h", 0, true, 0, 0⟩] "alice" "d" 0
    ⟨"u1", "alice", "h", 0, true, 0, 0⟩ rfl rfl

/-- Claim C7: with default flags `Article.to_dict` contains none of the
keys content, text_type, source_text; with_content adds the content key
in its fixed position (after the optional author and category blocks,
before public); with_src appends text_type then source_text as the final
keys. -/
theorem article_to_dict_optional_keys (a : Article) :
    ("content" ∉ keysOf (a.to_dict false false) ∧
     "text_type" ∉ keysOf (a.to_dict false false) ∧
     "source_text" ∉ keysOf (a.to_dict false false)) ∧
    (∀ ws, keysOf (a.to_dict true ws) =
      ["id", "title"]
      ++ (match a.author with | some _ => ["author"] | none => [])
      ++ (match a.category with | some _ => ["category"] | none => [])
      ++ ["content"]
      ++ ["public", "is_commentable", "read_count", "post_time",
          "update_time"]
      ++ (if ws then ["text_type", "source_text"] else [])) ∧
    (∀ wc, keysOf (a.to_dict wc true) =
      keysOf (a.to_dict wc false) ++ ["text_type", "source_text"]) := by
  refine ⟨⟨?_, ?_, ?_⟩, ?_, ?_⟩ <;>
    [skip; skip; skip; intro ws; intro wc] <;>
    simp only [article_keys] <;>
    cases ha : a.author <;> cases hc : a.category <;>
    first
      | (intro h; simp at h)
      | simp

/-- Claim C8, counterexample: a concrete article (no author, no category,
default flags) is serialized with key order id, title, public,
is_commentable, read_count, post_time, update_time, which is neither
equal to the section-3 field order nor an ordered subsequence of it
(section 3 lists read_count before public and is_commentable). -/
theorem article_order_spec3_counterexample :
    isSubseq
      (keysOf ((⟨"a1", true, "t", "md", "src", some "c", 0, 0, 0, true,
                 none, none⟩ : Article).to_dict false false))
      spec3ArticleOrder = false ∧
    keysOf ((⟨"a1", true, "t", "md", "src", some "c", 0, 0, 0, true,
              none, none⟩ : Article).to_dict false false)
      ≠ spec3ArticleOrder := by decide

/-- Claim C8, amended: `User.to_dict` and `Category.to_dict` emit their
keys in the relative order of the section-3 field lists; `Comment.to_dict`
does as well after its leading surrogate id key; `Article.to_dict`
instead emits the fixed order id, title, author, category, content,
public, is_commentable, read_count, post_time, update_time, text_type,
source_text (optional keys present per flags and joins), which deviates
from the section-3 order. -/
theorem to_dict_spec3_relative_order (catalog : List (String × Nat))
    (u : User) (wp : Bool) (c : CategoryRow) (cm : CommentRow)
    (a : Article) (wc ws : Bool) :
    isSubseq (keysOf (User.to_dict catalog u wp)) spec3UserOrder = true ∧
    isSubseq (keysOf (Category.to_dict c)) spec3CategoryOrder = true ∧
    (keysOf (Comment.to_dict cm)).take 1 = ["id"] ∧
    isSubseq (keysOf (Comment.to_dict cm)).tail spec3CommentOrder = true ∧
    keysOf (a.to_dict wc ws) =
      ["id", "title"]
      ++ (match a.author with | some _ => ["author"] | none => [])
      ++ (match a.category with | some _ => ["category"] | none => [])
      ++ (if wc then ["content"] else [])
      ++ ["public", "is_commentable", "read_count", "post_time",
          "update_time"]
      ++ (if ws then ["text_type", "source_text"] else []) := by
  refine ⟨?_, ?_, ?_, ?_, article_keys a wc ws⟩
  · cases wp <;> simp [User.to_dict, keysOf] <;> decide
  · cases hc : c.count <;> simp [Category.to_dict, keysOf, hc] <;> decide
  · cases hb : cm.is_author <;> simp [Comment.to_dict, keysOf, hb]
  · cases hb : cm.is_author <;> simp [Comment.to_dict, keysOf, hb] <;> decide

/-- Claim C9: deleting a user removes every comment and event whose user
foreign key referenced it (on_delete CASCADE), while every article and
category that referenced it survives with the user reference set to null
and every other field unchanged (on_delete SET NULL). -/
theorem delete_user_fk_policies (s : Store) (uid : String) :
    (∀ c ∈ s.comments, c.user = some uid →
        c ∉ (deleteUser s uid).comments) ∧
    (∀ e ∈ s.events, e.user = some uid →
        e ∉ (deleteUser s uid).events) ∧
    (∀ a ∈ s.articles, a.author = some uid →
        { a with author := none } ∈ (deleteUser s uid).articles) ∧
    (∀ cat ∈ s.categories, cat.create_by = some uid →
        { cat with create_by := none } ∈ (deleteUser s uid).categories) := by
  refine ⟨?_, ?_, ?_, ?_⟩
  · intro c _ hu hmem
    simp [deleteUser, List.mem_filter] at hmem
    exact hmem.2 hu
  · intro e _ hu hmem
    simp [deleteUser, List.mem_filter] at hmem
    exact hmem.2 hu
  · intro a ha hu
    simp only [deleteUser, List.mem_map]
    exact ⟨a, ha, by simp [hu]⟩
  · intro cat hcat hu
    simp only [deleteUser, List.mem_map]
    exact ⟨cat, hcat, by simp [hu]⟩

/-- Claim C9, witness: in a concrete store holding one user and one row
of each dependent table, all referencing that user, deleting the user
removes the comment and the event and nulls the article author and the
category owner. -/
theorem delete_user_fk_policies_witness :
    wComment ∉ (deleteUser wStore "u1").comments ∧
    wEvent ∉ (deleteUser wStore "u1").events ∧
    { wArticle with author := none } ∈ (deleteUser wStore "u1").articles ∧
    { wCategory with create_by := none }
      ∈ (deleteUser wStore "u1").categories :=
  ⟨(delete_user_fk_policies wStore "u1").1 wComment (by decide) rfl,
   (delete_user_fk_policies wStore "u1").2.1 wEvent (by decide) rfl,
   (delete_user_fk_policies wStore "u1").2.2.1 wArticle (by decide) rfl,
   (delete_user_fk_policies wStore "u1").2.2.2 wCategory (by decide) rfl⟩

/-- Claim C10: `User.to_dict` never emits the password key (the stored
hash is never serialized) nor create_time, and its keys are exactly id,
name, expired, last_login, with permission added when the flag is set. -/
theorem user_to_dict_key_set (catalog : List (String × Nat)) (u : User)
    (with_perimission : Bool) :
    "password" ∉ keysOf (User.to_dict catalog u with_perimission) ∧
    "create_time" ∉ keysOf (User.to_dict catalog u with_perimission) ∧
    keysOf (User.to_dict catalog u with_perimission)
      = if with_perimission then
          ["id", "name", "permission", "expired", "last_login"]
        else ["id", "name", "expired", "last_login"] := by
  cases with_perimission <;>
    refine ⟨?_, ?_, ?_⟩ <;> simp [User.to_dict, keysOf]

end Cage
